import Mathlib

/-!
Verification of the pinocchio-write-bytes-cu-bench repository.

The development shallowly embeds the two benchmark programs
(`programs/token-ops/src/lib.rs` and `programs/token-ops-2022/src/lib.rs`),
the `write_bytes_copy` helper of `programs/write-copy/src/lib.rs`, and the
benchmark harness of `tests/src/main.rs`.

Modelling conventions:
* Machine bytes are `Nat` (every byte the programs produce stays below 256;
  no arithmetic in the sources can overflow a byte into a larger value,
  reads are verbatim copies).
* Addresses of on-chain accounts are abstract: the dispatcher model uses a
  `Nat` identity per account view (the programs only move references and
  32-byte addresses around, never inspecting their contents), while the
  harness model uses `List Nat` for a 32-byte public key because the fixture
  builders write key bytes into raw account data.
* Rust slice indexing panics out of bounds; the embedding returns
  `ProgError.tooShort` for an instruction-data index (the spec's
  `DecodeError::TooShort`) and `ProgError.insufficientAccounts` for an
  account index (the spec's `ResolveError::InsufficientAccounts`).
* The external CPI call `.invoke()` is a black box; the embedding of
  `process_instruction` returns the fully-resolved operation descriptor that
  the source would hand to `.invoke()` (or `NoOp` for the `_ => Ok(())`
  fallback arm).
-/

namespace TokenBench

/-- Error outcomes of the embedded dispatchers.  `tooShort` models a panic
from indexing `instruction_data` out of bounds (the spec's
`DecodeError::TooShort`); `insufficientAccounts` models a panic from indexing
`accounts` out of bounds (the spec's `ResolveError::InsufficientAccounts`). -/
inductive ProgError where
  | tooShort
  | insufficientAccounts
deriving DecidableEq, Repr

/-- Value of a little-endian byte list, as `u64::from_le_bytes` computes it. -/
def leVal (bs : List Nat) : Nat := bs.foldr (fun b acc => b + 256 * acc) 0

/-- The four little-endian bytes of a `u32`, as `u32::to_le_bytes`. -/
def u32le (n : Nat) : List Nat :=
  [n % 256, n / 256 % 256, n / 256 ^ 2 % 256, n / 256 ^ 3 % 256]

/-- The eight little-endian bytes of a `u64`, as `u64::to_le_bytes`. -/
def u64le (n : Nat) : List Nat :=
  [n % 256, n / 256 % 256, n / 256 ^ 2 % 256, n / 256 ^ 3 % 256,
   n / 256 ^ 4 % 256, n / 256 ^ 5 % 256, n / 256 ^ 6 % 256, n / 256 ^ 7 % 256]

/-- Read `instruction_data[i]`; out of bounds is the decode-time panic,
modelled as `tooShort`. -/
def byteAt (data : List Nat) (i : Nat) : Except ProgError Nat :=
  match data[i]? with
  | some b => .ok b
  | none => .error .tooShort

/-- Read `u64::from_le_bytes(instruction_data[i..i+8].try_into().unwrap())`. -/
def readU64LE (data : List Nat) (i : Nat) : Except ProgError Nat := do
  let b0 ← byteAt data i
  let b1 ← byteAt data (i + 1)
  let b2 ← byteAt data (i + 2)
  let b3 ← byteAt data (i + 3)
  let b4 ← byteAt data (i + 4)
  let b5 ← byteAt data (i + 5)
  let b6 ← byteAt data (i + 6)
  let b7 ← byteAt data (i + 7)
  pure (leVal [b0, b1, b2, b3, b4, b5, b6, b7])

/-- Read `&accounts[i]` (or `accounts[i].address()`); out of bounds is the
resolution-time panic, modelled as `insufficientAccounts`. -/
def acct (accounts : List Nat) (i : Nat) : Except ProgError Nat :=
  match accounts[i]? with
  | some a => .ok a
  | none => .error .insufficientAccounts

/-- The decoded payload of one instruction: discriminator byte plus the
operation-specific fields exactly as both `process_instruction` variants read
them from `instruction_data` (the byte reads of the two variants are
identical, line for line).  `SetAuthorityP` carries the raw `authority_type`
byte because the source applies no validation to it. -/
inductive Payload where
  | TransferP (amount : Nat)
  | MintToP (amount : Nat)
  | BurnP (amount : Nat)
  | ApproveP (amount : Nat)
  | RevokeP
  | CloseAccountP
  | FreezeAccountP
  | ThawAccountP
  | TransferCheckedP (amount : Nat) (decimals : Nat)
  | InitializeMintP (decimals : Nat) (hasFreeze : Bool)
  | InitializeMint2P (decimals : Nat) (hasFreeze : Bool)
  | InitializeAccountP
  | InitializeAccount2P
  | InitializeAccount3P
  | SetAuthorityP (authorityType : Nat) (hasNew : Bool)
  | NoOpP (disc : Nat)
deriving DecidableEq, Repr

/-- Pure byte interpretation of an instruction buffer: byte 0 is the
discriminator, the remaining bytes are read per the opcode's schema.  This is
the instruction-data part of both `process_instruction` variants, which is
identical in the two sources; it takes no accounts. -/
def decode (data : List Nat) : Except ProgError Payload := do
  let op ← byteAt data 0
  if op = 0 then do
    let amount ← readU64LE data 1
    pure (.TransferP amount)
  else if op = 1 then do
    let amount ← readU64LE data 1
    pure (.MintToP amount)
  else if op = 2 then do
    let amount ← readU64LE data 1
    pure (.BurnP amount)
  else if op = 3 then do
    let amount ← readU64LE data 1
    pure (.ApproveP amount)
  else if op = 4 then pure .RevokeP
  else if op = 5 then pure .CloseAccountP
  else if op = 6 then pure .FreezeAccountP
  else if op = 7 then pure .ThawAccountP
  else if op = 8 then do
    let amount ← readU64LE data 1
    let decimals ← byteAt data 9
    pure (.TransferCheckedP amount decimals)
  else if op = 9 then do
    let decimals ← byteAt data 1
    let hasFreeze ← byteAt data 2
    pure (.InitializeMintP decimals (hasFreeze != 0))
  else if op = 10 then do
    let decimals ← byteAt data 1
    let hasFreeze ← byteAt data 2
    pure (.InitializeMint2P decimals (hasFreeze != 0))
  else if op = 11 then pure .InitializeAccountP
  else if op = 12 then pure .InitializeAccount2P
  else if op = 13 then pure .InitializeAccount3P
  else if op = 14 then do
    let authorityType ← byteAt data 1
    let hasNew ← byteAt data 2
    pure (.SetAuthorityP authorityType (hasNew != 0))
  else pure (.NoOpP op)

/-- Operation descriptor built by the classic (`token-ops`) dispatcher and
handed to the pinocchio-token `.invoke()`.  Field order matches the source
struct literals.  `SetAuthority` carries the raw `authority_type` byte: the
source fills that field with `unsafe { core::mem::transmute(authority_type) }`
and performs no range check.  `NoOp` is the `_ => Ok(())` fallback arm. -/
inductive TokenInstr where
  | Transfer (fromAcct toAcct authority : Nat) (amount : Nat)
  | MintTo (mint account mintAuthority : Nat) (amount : Nat)
  | Burn (account mint authority : Nat) (amount : Nat)
  | Approve (sourceAcct delegate authority : Nat) (amount : Nat)
  | Revoke (sourceAcct authority : Nat)
  | CloseAccount (account destination authority : Nat)
  | FreezeAccount (account mint freezeAuthority : Nat)
  | ThawAccount (account mint freezeAuthority : Nat)
  | TransferChecked (fromAcct mint toAcct authority : Nat) (amount decimals : Nat)
  | InitializeMint (mint rentSysvar : Nat) (decimals : Nat)
      (mintAuthority : Nat) (freezeAuthority : Option Nat)
  | InitializeMint2 (mint : Nat) (decimals : Nat)
      (mintAuthority : Nat) (freezeAuthority : Option Nat)
  | InitializeAccount (account mint owner rentSysvar : Nat)
  | InitializeAccount2 (account mint rentSysvar owner : Nat)
  | InitializeAccount3 (account mint owner : Nat)
  | SetAuthority (account authority : Nat) (authorityType : Nat)
      (newAuthority : Option Nat)
  | NoOp (disc : Nat)
deriving DecidableEq, Repr

/-- Account resolution of the classic dispatcher: positional reads per arm of
`process_instruction` in `programs/token-ops/src/lib.rs`, in source order. -/
def resolveTokenOps (accounts : List Nat) : Payload → Except ProgError TokenInstr
  | .TransferP amount => do
      let fromAcct ← acct accounts 0
      let toAcct ← acct accounts 1
      let authority ← acct accounts 2
      pure (.Transfer fromAcct toAcct authority amount)
  | .MintToP amount => do
      let mint ← acct accounts 0
      let account ← acct accounts 1
      let mintAuthority ← acct accounts 2
      pure (.MintTo mint account mintAuthority amount)
  | .BurnP amount => do
      let account ← acct accounts 0
      let mint ← acct accounts 1
      let authority ← acct accounts 2
      pure (.Burn account mint authority amount)
  | .ApproveP amount => do
      let sourceAcct ← acct accounts 0
      let delegate ← acct accounts 1
      let authority ← acct accounts 2
      pure (.Approve sourceAcct delegate authority amount)
  | .RevokeP => do
      let sourceAcct ← acct accounts 0
      let authority ← acct accounts 1
      pure (.Revoke sourceAcct authority)
  | .CloseAccountP => do
      let account ← acct accounts 0
      let destination ← acct accounts 1
      let authority ← acct accounts 2
      pure (.CloseAccount account destination authority)
  | .FreezeAccountP => do
      let account ← acct accounts 0
      let mint ← acct accounts 1
      let freezeAuthority ← acct accounts 2
      pure (.FreezeAccount account mint freezeAuthority)
  | .ThawAccountP => do
      let account ← acct accounts 0
      let mint ← acct accounts 1
      let freezeAuthority ← acct accounts 2
      pure (.ThawAccount account mint freezeAuthority)
  | .TransferCheckedP amount decimals => do
      let fromAcct ← acct accounts 0
      let mint ← acct accounts 1
      let toAcct ← acct accounts 2
      let authority ← acct accounts 3
      pure (.TransferChecked fromAcct mint toAcct authority amount decimals)
  | .InitializeMintP decimals hasFreeze => do
      let freezeAuthority ←
        if hasFreeze then do
          let fa ← acct accounts 3
          pure (some fa)
        else pure none
      let mint ← acct accounts 0
      let rentSysvar ← acct accounts 1
      let mintAuthority ← acct accounts 2
      pure (.InitializeMint mint rentSysvar decimals mintAuthority freezeAuthority)
  | .InitializeMint2P decimals hasFreeze => do
      let freezeAuthority ←
        if hasFreeze then do
          let fa ← acct accounts 2
          pure (some fa)
        else pure none
      let mint ← acct accounts 0
      let mintAuthority ← acct accounts 1
      pure (.InitializeMint2 mint decimals mintAuthority freezeAuthority)
  | .InitializeAccountP => do
      let account ← acct accounts 0
      let mint ← acct accounts 1
      let owner ← acct accounts 2
      let rentSysvar ← acct accounts 3
      pure (.InitializeAccount account mint owner rentSysvar)
  | .InitializeAccount2P => do
      let account ← acct accounts 0
      let mint ← acct accounts 1
      let rentSysvar ← acct accounts 2
      let owner ← acct accounts 3
      pure (.InitializeAccount2 account mint rentSysvar owner)
  | .InitializeAccount3P => do
      let account ← acct accounts 0
      let mint ← acct accounts 1
      let owner ← acct accounts 2
      pure (.InitializeAccount3 account mint owner)
  | .SetAuthorityP authorityType hasNew => do
      let newAuthority ←
        if hasNew then do
          let na ← acct accounts 2
          pure (some na)
        else pure none
      let account ← acct accounts 0
      let authority ← acct accounts 1
      pure (.SetAuthority account authority authorityType newAuthority)
  | .NoOpP disc => pure (.NoOp disc)

/-- `process_instruction` of `programs/token-ops/src/lib.rs`: decode the
instruction bytes, then resolve the account slots and build the operation
descriptor that is handed to `.invoke()`. -/
def processTokenOps (accounts : List Nat) (data : List Nat) :
    Except ProgError TokenInstr := do
  let p ← decode data
  resolveTokenOps accounts p

/-- Operation descriptor built by the extended (`token-ops-2022`) dispatcher:
same fields as the classic one plus the explicit trailing `token_program`
account read in every arm. -/
inductive TokenInstr2022 where
  | Transfer (fromAcct toAcct authority : Nat) (amount : Nat) (tokenProgram : Nat)
  | MintTo (mint account mintAuthority : Nat) (amount : Nat) (tokenProgram : Nat)
  | Burn (account mint authority : Nat) (amount : Nat) (tokenProgram : Nat)
  | Approve (sourceAcct delegate authority : Nat) (amount : Nat) (tokenProgram : Nat)
  | Revoke (sourceAcct authority : Nat) (tokenProgram : Nat)
  | CloseAccount (account destination authority : Nat) (tokenProgram : Nat)
  | FreezeAccount (account mint freezeAuthority : Nat) (tokenProgram : Nat)
  | ThawAccount (account mint freezeAuthority : Nat) (tokenProgram : Nat)
  | TransferChecked (fromAcct mint toAcct authority : Nat)
      (amount decimals : Nat) (tokenProgram : Nat)
  | InitializeMint (mint rentSysvar : Nat) (decimals : Nat)
      (mintAuthority : Nat) (freezeAuthority : Option Nat) (tokenProgram : Nat)
  | InitializeMint2 (mint : Nat) (decimals : Nat)
      (mintAuthority : Nat) (freezeAuthority : Option Nat) (tokenProgram : Nat)
  | InitializeAccount (account mint owner rentSysvar : Nat) (tokenProgram : Nat)
  | InitializeAccount2 (account mint rentSysvar owner : Nat) (tokenProgram : Nat)
  | InitializeAccount3 (account mint owner : Nat) (tokenProgram : Nat)
  | SetAuthority (account authority : Nat) (authorityType : Nat)
      (newAuthority : Option Nat) (tokenProgram : Nat)
  | NoOp (disc : Nat)
deriving DecidableEq, Repr

/-- Account resolution of the extended dispatcher: positional reads per arm
of `process_instruction` in `programs/token-ops-2022/src/lib.rs`, in source
order.  For opcodes 9, 10 and 14 the token-program index is
`if flag { base + 1 } else { base }` exactly as the source computes it. -/
def resolveTokenOps2022 (accounts : List Nat) :
    Payload → Except ProgError TokenInstr2022
  | .TransferP amount => do
      let tokenProgram ← acct accounts 3
      let fromAcct ← acct accounts 0
      let toAcct ← acct accounts 1
      let authority ← acct accounts 2
      pure (.Transfer fromAcct toAcct authority amount tokenProgram)
  | .MintToP amount => do
      let tokenProgram ← acct accounts 3
      let mint ← acct accounts 0
      let account ← acct accounts 1
      let mintAuthority ← acct accounts 2
      pure (.MintTo mint account mintAuthority amount tokenProgram)
  | .BurnP amount => do
      let tokenProgram ← acct accounts 3
      let account ← acct accounts 0
      let mint ← acct accounts 1
      let authority ← acct accounts 2
      pure (.Burn account mint authority amount tokenProgram)
  | .ApproveP amount => do
      let tokenProgram ← acct accounts 3
      let sourceAcct ← acct accounts 0
      let delegate ← acct accounts 1
      let authority ← acct accounts 2
      pure (.Approve sourceAcct delegate authority amount tokenProgram)
  | .RevokeP => do
      let tokenProgram ← acct accounts 2
      let sourceAcct ← acct accounts 0
      let authority ← acct accounts 1
      pure (.Revoke sourceAcct authority tokenProgram)
  | .CloseAccountP => do
      let tokenProgram ← acct accounts 3
      let account ← acct accounts 0
      let destination ← acct accounts 1
      let authority ← acct accounts 2
      pure (.CloseAccount account destination authority tokenProgram)
  | .FreezeAccountP => do
      let tokenProgram ← acct accounts 3
      let account ← acct accounts 0
      let mint ← acct accounts 1
      let freezeAuthority ← acct accounts 2
      pure (.FreezeAccount account mint freezeAuthority tokenProgram)
  | .ThawAccountP => do
      let tokenProgram ← acct accounts 3
      let account ← acct accounts 0
      let mint ← acct accounts 1
      let freezeAuthority ← acct accounts 2
      pure (.ThawAccount account mint freezeAuthority tokenProgram)
  | .TransferCheckedP amount decimals => do
      let tokenProgram ← acct accounts 4
      let fromAcct ← acct accounts 0
      let mint ← acct accounts 1
      let toAcct ← acct accounts 2
      let authority ← acct accounts 3
      pure (.TransferChecked fromAcct mint toAcct authority amount decimals tokenProgram)
  | .InitializeMintP decimals hasFreeze => do
      let tokenProgram ← acct accounts (if hasFreeze then 4 else 3)
      let freezeAuthority ←
        if hasFreeze then do
          let fa ← acct accounts 3
          pure (some fa)
        else pure none
      let mint ← acct accounts 0
      let rentSysvar ← acct accounts 1
      let mintAuthority ← acct accounts 2
      pure (.InitializeMint mint rentSysvar decimals mintAuthority freezeAuthority tokenProgram)
  | .InitializeMint2P decimals hasFreeze => do
      let tokenProgram ← acct accounts (if hasFreeze then 3 else 2)
      let freezeAuthority ←
        if hasFreeze then do
          let fa ← acct accounts 2
          pure (some fa)
        else pure none
      let mint ← acct accounts 0
      let mintAuthority ← acct accounts 1
      pure (.InitializeMint2 mint decimals mintAuthority freezeAuthority tokenProgram)
  | .InitializeAccountP => do
      let tokenProgram ← acct accounts 4
      let account ← acct accounts 0
      let mint ← acct accounts 1
      let owner ← acct accounts 2
      let rentSysvar ← acct accounts 3
      pure (.InitializeAccount account mint owner rentSysvar tokenProgram)
  | .InitializeAccount2P => do
      let tokenProgram ← acct accounts 4
      let account ← acct accounts 0
      let mint ← acct accounts 1
      let rentSysvar ← acct accounts 2
      let owner ← acct accounts 3
      pure (.InitializeAccount2 account mint rentSysvar owner tokenProgram)
  | .InitializeAccount3P => do
      let tokenProgram ← acct accounts 3
      let account ← acct accounts 0
      let mint ← acct accounts 1
      let owner ← acct accounts 2
      pure (.InitializeAccount3 account mint owner tokenProgram)
  | .SetAuthorityP authorityType hasNew => do
      let tokenProgram ← acct accounts (if hasNew then 3 else 2)
      let newAuthority ←
        if hasNew then do
          let na ← acct accounts 2
          pure (some na)
        else pure none
      let account ← acct accounts 0
      let authority ← acct accounts 1
      pure (.SetAuthority account authority authorityType newAuthority tokenProgram)
  | .NoOpP disc => pure (.NoOp disc)

/-- `process_instruction` of `programs/token-ops-2022/src/lib.rs`. -/
def processTokenOps2022 (accounts : List Nat) (data : List Nat) :
    Except ProgError TokenInstr2022 := do
  let p ← decode data
  resolveTokenOps2022 accounts p

/-- Index of the trailing `token_program` slot in the classic dispatcher's
documented account layout (the module doc comment of
`programs/token-ops/src/lib.rs`): it is the slot immediately after the last
role account, shifted forward by one when the optional-account flag of
opcodes 9, 10 or 14 is set.  The classic dispatcher reads exactly the slots
before this index. -/
def tokenProgramSlot : Payload → Nat
  | .TransferP _ => 3
  | .MintToP _ => 3
  | .BurnP _ => 3
  | .ApproveP _ => 3
  | .RevokeP => 2
  | .CloseAccountP => 3
  | .FreezeAccountP => 3
  | .ThawAccountP => 3
  | .TransferCheckedP _ _ => 4
  | .InitializeMintP _ hasFreeze => if hasFreeze then 4 else 3
  | .InitializeMint2P _ hasFreeze => if hasFreeze then 3 else 2
  | .InitializeAccountP => 4
  | .InitializeAccount2P => 4
  | .InitializeAccount3P => 3
  | .SetAuthorityP _ hasNew => if hasNew then 3 else 2
  | .NoOpP _ => 0

/-- The `TokenOp` enum of `tests/src/main.rs`; the derived discriminants
(`op as u8`) follow declaration order, `Transfer = 0` through
`SetAuthority = 14`. -/
inductive TokenOp where
  | Transfer
  | MintTo
  | Burn
  | Approve
  | Revoke
  | CloseAccount
  | FreezeAccount
  | ThawAccount
  | TransferChecked
  | InitializeMint
  | InitializeMint2
  | InitializeAccount
  | InitializeAccount2
  | InitializeAccount3
  | SetAuthority
deriving DecidableEq, Repr

/-- Discriminant of a `TokenOp` (`op as u8` in the source). -/
def opcodeOf : TokenOp → Nat
  | .Transfer => 0
  | .MintTo => 1
  | .Burn => 2
  | .Approve => 3
  | .Revoke => 4
  | .CloseAccount => 5
  | .FreezeAccount => 6
  | .ThawAccount => 7
  | .TransferChecked => 8
  | .InitializeMint => 9
  | .InitializeMint2 => 10
  | .InitializeAccount => 11
  | .InitializeAccount2 => 12
  | .InitializeAccount3 => 13
  | .SetAuthority => 14

/-- Row label printed for each operation in `benchmark_token_ops` and
`benchmark_token_2022_ops`. -/
def opName : TokenOp → String
  | .Transfer => "Transfer"
  | .MintTo => "MintTo"
  | .Burn => "Burn"
  | .Approve => "Approve"
  | .Revoke => "Revoke"
  | .CloseAccount => "CloseAccount"
  | .FreezeAccount => "FreezeAccount"
  | .ThawAccount => "ThawAccount"
  | .TransferChecked => "TransferChecked"
  | .InitializeMint => "InitializeMint"
  | .InitializeMint2 => "InitializeMint2"
  | .InitializeAccount => "InitializeAccount"
  | .InitializeAccount2 => "InitializeAccount2"
  | .InitializeAccount3 => "InitializeAccount3"
  | .SetAuthority => "SetAuthority"

/-- Metadata carried by a failed transaction, as far as the harness uses it:
`e.meta.compute_units_consumed`. -/
structure TxFailure where
  metaComputeUnits : Nat
deriving DecidableEq, Repr

/-- Compute-unit figure the harness extracts from one `send_transaction`
outcome (`tests/src/main.rs`, the match at the end of `run_token_benchmark`
and `run_token_2022_benchmark`): the consumed units on success, the units
attached to the failure metadata on error. -/
def reportedComputeUnits : Except TxFailure Nat → Nat
  | .ok cu => cu
  | .error e => e.metaComputeUnits

/-- `run_write_benchmark`: returns 0 when the program binary could not be
read from disk, otherwise the compute-unit figure of the one submitted
transaction. -/
def runWriteBenchmark (programBytes : Option (List Nat))
    (txResult : Except TxFailure Nat) : Nat :=
  match programBytes with
  | none => 0
  | some _ => reportedComputeUnits txResult

/-- Left-align a string in a field of `w` characters (`{:<w}`). -/
def padRight (s : String) (w : Nat) : String :=
  s ++ String.mk (List.replicate (w - s.length) ' ')

/-- Right-align a string in a field of `w` characters (`{:>w}`). -/
def padLeft (s : String) (w : Nat) : String :=
  String.mk (List.replicate (w - s.length) ' ') ++ s

/-- One printed line of the benchmark table:
`println!("{:<25} {:>12}", first, second)`. -/
def formatRowStr (first second : String) : String :=
  padRight first 25 ++ " " ++ padLeft second 12

/-- The two header lines every token benchmark table prints: the column
titles and a 38-dash separator. -/
def tableHeaderLines : List String :=
  [formatRowStr "Operation" "CU Consumed", String.mk (List.replicate 38 '-')]

/-- The fixed order in which `benchmark_token_ops` (and, identically,
`benchmark_token_2022_ops`) runs and prints the fifteen operations, read off
the sequence of `run_token_benchmark`/`println!` pairs in the source. -/
def benchRowOrder : List TokenOp :=
  [.Transfer, .TransferChecked, .MintTo, .Burn, .Approve, .Revoke,
   .FreezeAccount, .ThawAccount, .CloseAccount, .InitializeMint,
   .InitializeMint2, .InitializeAccount, .InitializeAccount2,
   .InitializeAccount3, .SetAuthority]

/-- Lines printed to standard output by `benchmark_token_ops`.
`programBytes` is the result of reading the program binary from disk
(`none`: the read failed and the function returns before printing anything);
`txResult` is the outcome of the measured transaction of each operation's
`run_token_benchmark` call. -/
def benchmarkTokenOps (programBytes : Option (List Nat))
    (txResult : TokenOp → Except TxFailure Nat) : List String :=
  match programBytes with
  | none => []
  | some _ =>
      tableHeaderLines ++
        benchRowOrder.map fun op =>
          formatRowStr (opName op) (toString (reportedComputeUnits (txResult op)))

/-- Lines printed to standard output by `benchmark_token_2022_ops`; the
source duplicates `benchmark_token_ops` with the same labels and order. -/
def benchmarkToken2022Ops (programBytes : Option (List Nat))
    (txResult : TokenOp → Except TxFailure Nat) : List String :=
  match programBytes with
  | none => []
  | some _ =>
      tableHeaderLines ++
        benchRowOrder.map fun op =>
          formatRowStr (opName op) (toString (reportedComputeUnits (txResult op)))

/-- Overwrite `data[off .. off + src.length]` with `src`, the effect of
`data[off..off+n].copy_from_slice(&src)` on a byte vector. -/
def writeSlice (data : List Nat) (off : Nat) (src : List Nat) : List Nat :=
  data.take off ++ (src ++ data.drop (off + src.length))

/-- The sub-list `data[off .. off + len]`. -/
def sliceOf (data : List Nat) (off len : Nat) : List Nat :=
  (data.drop off).take len

/-- The unconditional writes of `create_mint_data` (`tests/src/main.rs`):
into a zeroed 82-byte vector, the mint-authority `Some` flag at 0, the
mint-authority key at 4, the supply at 36, decimals at 44 and
is_initialized at 45. -/
def mintFixtureBase (mintAuthority : List Nat) (decimals supply : Nat) : List Nat :=
  writeSlice
    (writeSlice
      (writeSlice
        (writeSlice
          (writeSlice (List.replicate 82 0) 0 (u32le 1))
          4 mintAuthority)
        36 (u64le supply))
      44 [decimals])
    45 [1]

/-- `create_mint_data` of `tests/src/main.rs`: an 82-byte SPL mint record,
built by writing each field into a zeroed vector at its fixed offset; the
freeze authority gets flag 1 and its key at 50 when present, flag 0
otherwise. -/
def create_mint_data (mintAuthority : List Nat) (freezeAuthority : Option (List Nat))
    (decimals supply : Nat) : List Nat :=
  match freezeAuthority with
  | some auth =>
      writeSlice (writeSlice (mintFixtureBase mintAuthority decimals supply)
        46 (u32le 1)) 50 auth
  | none => writeSlice (mintFixtureBase mintAuthority decimals supply) 46 (u32le 0)

/-- `create_token_account_data` of `tests/src/main.rs`: a 165-byte SPL token
account record; the optional fields delegate (offset 72), is_native (offset
109) and close_authority (offset 129) keep (or are explicitly given) the
four-byte zero "absent" flag. -/
def create_token_account_data (mint owner : List Nat) (amount : Nat) : List Nat :=
  writeSlice
    (writeSlice
      (writeSlice
        (writeSlice
          (writeSlice
            (writeSlice
              (writeSlice
                (writeSlice (List.replicate 165 0) 0 mint)
                32 owner)
              64 (u64le amount))
            72 (u32le 0))
          108 [1])
        109 (u32le 0))
      121 (u64le 0))
    129 (u32le 0)

/-- An SPL mint record as the external ledger's deserializer sees it. -/
structure MintRecord where
  mintAuthority : Option (List Nat)
  supply : Nat
  decimals : Nat
  isInitialized : Bool
  freezeAuthority : Option (List Nat)
deriving DecidableEq, Repr

/-- Modelled from the spec: the 4-byte `COption<Pubkey>` field of the
external SPL layout (the deserializer itself is not part of this repository).
Flag bytes `1,0,0,0` mean present followed by a 32-byte key, `0,0,0,0` mean
absent; any other flag is rejected. -/
def readCOption32 (data : List Nat) (off : Nat) : Option (Option (List Nat)) :=
  if sliceOf data off 4 = u32le 1 then some (some (sliceOf data (off + 4) 32))
  else if sliceOf data off 4 = u32le 0 then some none
  else none

/-- Modelled from the spec: the one-byte boolean of the external SPL layout;
bytes other than 0 and 1 are rejected. -/
def readBool (data : List Nat) (off : Nat) : Option Bool :=
  match sliceOf data off 1 with
  | [0] => some false
  | [1] => some true
  | _ => none

/-- Modelled from the spec: the external ledger's mint deserialization
(`spl_token::state::Mint::unpack` is not part of this repository), reading
the §3/§4.4 layout: mint authority `COption` at 0, supply little-endian u64
at 36, decimals at 44, is_initialized at 45, freeze authority `COption` at
46, over exactly 82 bytes. -/
def unpackMint (data : List Nat) : Option MintRecord :=
  if data.length = 82 then
    match readCOption32 data 0, readBool data 45, readCOption32 data 46,
        sliceOf data 44 1 with
    | some ma, some isInit, some fa, [d] =>
        some ⟨ma, leVal (sliceOf data 36 8), d, isInit, fa⟩
    | _, _, _, _ => none
  else none

/-- One instruction the harness submits to the virtual ledger: target
program, ordered account keys, instruction bytes.  Public keys are modelled
as their 32-byte lists. -/
structure Instr where
  programId : List Nat
  accounts : List (List Nat)
  data : List Nat
deriving DecidableEq, Repr

/-- The public keys one `run_token_benchmark` (or
`run_token_2022_benchmark`) call works with: the benchmark program identity,
the token-program identity, and the keypairs/accounts the function creates.
`closeToken`, `newMint`, `newToken` and `newAuthority` are the per-operation
fresh keys from `Pubkey::new_unique()`. -/
structure BenchEnv where
  benchProgramId : List Nat
  tokenProgramId : List Nat
  authority : List Nat
  mint : List Nat
  sourceToken : List Nat
  destToken : List Nat
  delegate : List Nat
  closeToken : List Nat
  newMint : List Nat
  newToken : List Nat
  newAuthority : List Nat
  rentSysvar : List Nat
deriving DecidableEq, Repr

/-- Setup instructions `run_token_benchmark` submits (and whose results it
discards with `let _ = svm.send_transaction(tx)`) before the measured
instruction: an Approve before Revoke, a FreezeAccount before ThawAccount,
nothing for any other operation. -/
def setupInstrs (env : BenchEnv) : TokenOp → List Instr
  | .Revoke =>
      [⟨env.benchProgramId,
        [env.sourceToken, env.delegate, env.authority, env.tokenProgramId],
        3 :: u64le 1000⟩]
  | .ThawAccount =>
      [⟨env.benchProgramId,
        [env.sourceToken, env.mint, env.authority, env.tokenProgramId],
        [6]⟩]
  | _ => []

/-- The measured instruction `run_token_benchmark` submits for each
operation: account list and data bytes per the match arm in the source. -/
def measuredInstr (env : BenchEnv) : TokenOp → Instr
  | .Transfer =>
      ⟨env.benchProgramId,
       [env.sourceToken, env.destToken, env.authority, env.tokenProgramId],
       0 :: u64le 1000⟩
  | .TransferChecked =>
      ⟨env.benchProgramId,
       [env.sourceToken, env.mint, env.destToken, env.authority, env.tokenProgramId],
       8 :: u64le 1000 ++ [9]⟩
  | .MintTo =>
      ⟨env.benchProgramId,
       [env.mint, env.destToken, env.authority, env.tokenProgramId],
       1 :: u64le 1000⟩
  | .Burn =>
      ⟨env.benchProgramId,
       [env.sourceToken, env.mint, env.authority, env.tokenProgramId],
       2 :: u64le 1000⟩
  | .Approve =>
      ⟨env.benchProgramId,
       [env.sourceToken, env.delegate, env.authority, env.tokenProgramId],
       3 :: u64le 1000⟩
  | .Revoke =>
      ⟨env.benchProgramId,
       [env.sourceToken, env.authority, env.tokenProgramId],
       [4]⟩
  | .FreezeAccount =>
      ⟨env.benchProgramId,
       [env.sourceToken, env.mint, env.authority, env.tokenProgramId],
       [6]⟩
  | .ThawAccount =>
      ⟨env.benchProgramId,
       [env.sourceToken, env.mint, env.authority, env.tokenProgramId],
       [7]⟩
  | .CloseAccount =>
      ⟨env.benchProgramId,
       [env.closeToken, env.authority, env.authority, env.tokenProgramId],
       [5]⟩
  | .InitializeMint =>
      ⟨env.benchProgramId,
       [env.newMint, env.rentSysvar, env.authority, env.authority, env.tokenProgramId],
       [9, 9, 1]⟩
  | .InitializeMint2 =>
      ⟨env.benchProgramId,
       [env.newMint, env.authority, env.authority, env.tokenProgramId],
       [10, 9, 1]⟩
  | .InitializeAccount =>
      ⟨env.benchProgramId,
       [env.newToken, env.mint, env.authority, env.rentSysvar, env.tokenProgramId],
       [11]⟩
  | .InitializeAccount2 =>
      ⟨env.benchProgramId,
       [env.newToken, env.mint, env.rentSysvar, env.authority, env.tokenProgramId],
       [12]⟩
  | .InitializeAccount3 =>
      ⟨env.benchProgramId,
       [env.newToken, env.mint, env.authority, env.tokenProgramId],
       [13]⟩
  | .SetAuthority =>
      ⟨env.benchProgramId,
       [env.mint, env.authority, env.newAuthority, env.tokenProgramId],
       [14, 0, 1]⟩

/-- The fixture write the CloseAccount arm performs before measuring: a
fresh token account under `closeToken` holding a zero balance. -/
def closeAccountFixture (env : BenchEnv) : List Nat × List Nat :=
  (env.closeToken, create_token_account_data env.mint env.authority 0)

/-- Compute-unit figure a benchmark run reports for one operation, given the
ledger's outcome for each submitted instruction: only the measured
instruction's outcome enters the report (setup results are discarded). -/
def runTokenBenchCU (env : BenchEnv) (exec : Instr → Except TxFailure Nat)
    (op : TokenOp) : Nat :=
  reportedComputeUnits (exec (measuredInstr env op))

/-- `write_bytes_copy` of `programs/write-copy/src/lib.rs`: copy
`min(destination.len(), source.len())` bytes from the front of `source` over
the front of `destination`.  The destination is `&mut [MaybeUninit<u8>]`;
an uninitialized byte is modelled as `none`. -/
def write_bytes_copy (destination : List (Option Nat)) (source : List Nat) :
    List (Option Nat) :=
  let len := min destination.length source.length
  (source.take len).map some ++ destination.drop len

/-- A concrete environment for witness instantiations. -/
def sampleEnv : BenchEnv :=
  ⟨List.replicate 32 5, List.replicate 32 6, List.replicate 32 7,
   List.replicate 32 8, List.replicate 32 9, List.replicate 32 10,
   List.replicate 32 11, List.replicate 32 12, List.replicate 32 13,
   List.replicate 32 14, List.replicate 32 15, List.replicate 32 16⟩

theorem ok_bind {ε α β : Type} (g : α → Except ε β) (x : α) :
    Except.ok x >>= g = g x := rfl

theorem error_bind {ε α β : Type} (g : α → Except ε β) (e : ε) :
    (Except.error e : Except ε α) >>= g = Except.error e := rfl

theorem pure_eq_ok {ε α : Type} (x : α) : (pure x : Except ε α) = Except.ok x := rfl

theorem decode_unknown (d : Nat) (hd : 14 < d) (rest : List Nat) :
    decode (d :: rest) = .ok (.NoOpP d) := by
  have nz : ∀ k : Nat, k < 15 → ¬ d = k := fun k hk => by omega
  simp only [decode, byteAt, List.getElem?_cons_zero, ok_bind]
  rw [if_neg (nz 0 (by norm_num)), if_neg (nz 1 (by norm_num)),
    if_neg (nz 2 (by norm_num)), if_neg (nz 3 (by norm_num)),
    if_neg (nz 4 (by norm_num)), if_neg (nz 5 (by norm_num)),
    if_neg (nz 6 (by norm_num)), if_neg (nz 7 (by norm_num)),
    if_neg (nz 8 (by norm_num)), if_neg (nz 9 (by norm_num)),
    if_neg (nz 10 (by norm_num)), if_neg (nz 11 (by norm_num)),
    if_neg (nz 12 (by norm_num)), if_neg (nz 13 (by norm_num)),
    if_neg (nz 14 (by norm_num))]
  rfl

set_option maxHeartbeats 3000000 in
/-- Claim C3: in either dispatcher variant, a payload of the documented
exact length decodes successfully for every opcode 0-14 (amounts read as
fixed-width little-endian integers, witnessed by the `leVal` value), one
byte shorter fails with the `TooShort` decode error, one byte longer also
succeeds with the trailing byte ignored (the `rest` binder), and decoding is
the accounts-free function `decode` through which both `process_instruction`
variants factor. -/
theorem C3_decode_lengths :
    (∀ b0 b1 b2 b3 b4 b5 b6 b7 : Nat, ∀ rest : List Nat,
      decode (0 :: b0 :: b1 :: b2 :: b3 :: b4 :: b5 :: b6 :: b7 :: rest) =
        .ok (.TransferP (leVal [b0, b1, b2, b3, b4, b5, b6, b7]))) ∧
    (∀ b0 b1 b2 b3 b4 b5 b6 b7 : Nat, ∀ rest : List Nat,
      decode (1 :: b0 :: b1 :: b2 :: b3 :: b4 :: b5 :: b6 :: b7 :: rest) =
        .ok (.MintToP (leVal [b0, b1, b2, b3, b4, b5, b6, b7]))) ∧
    (∀ b0 b1 b2 b3 b4 b5 b6 b7 : Nat, ∀ rest : List Nat,
      decode (2 :: b0 :: b1 :: b2 :: b3 :: b4 :: b5 :: b6 :: b7 :: rest) =
        .ok (.BurnP (leVal [b0, b1, b2, b3, b4, b5, b6, b7]))) ∧
    (∀ b0 b1 b2 b3 b4 b5 b6 b7 : Nat, ∀ rest : List Nat,
      decode (3 :: b0 :: b1 :: b2 :: b3 :: b4 :: b5 :: b6 :: b7 :: rest) =
        .ok (.ApproveP (leVal [b0, b1, b2, b3, b4, b5, b6, b7]))) ∧
    (∀ b0 b1 b2 b3 b4 b5 b6 : Nat,
      decode [0, b0, b1, b2, b3, b4, b5, b6] = .error .tooShort) ∧
    (∀ b0 b1 b2 b3 b4 b5 b6 : Nat,
      decode [1, b0, b1, b2, b3, b4, b5, b6] = .error .tooShort) ∧
    (∀ b0 b1 b2 b3 b4 b5 b6 : Nat,
      decode [2, b0, b1, b2, b3, b4, b5, b6] = .error .tooShort) ∧
    (∀ b0 b1 b2 b3 b4 b5 b6 : Nat,
      decode [3, b0, b1, b2, b3, b4, b5, b6] = .error .tooShort) ∧
    (∀ rest : List Nat, decode (4 :: rest) = .ok .RevokeP) ∧
    (∀ rest : List Nat, decode (5 :: rest) = .ok .CloseAccountP) ∧
    (∀ rest : List Nat, decode (6 :: rest) = .ok .FreezeAccountP) ∧
    (∀ rest : List Nat, decode (7 :: rest) = .ok .ThawAccountP) ∧
    decode [] = .error .tooShort ∧
    (∀ b0 b1 b2 b3 b4 b5 b6 b7 dm : Nat, ∀ rest : List Nat,
      decode (8 :: b0 :: b1 :: b2 :: b3 :: b4 :: b5 :: b6 :: b7 :: dm :: rest) =
        .ok (.TransferCheckedP (leVal [b0, b1, b2, b3, b4, b5, b6, b7]) dm)) ∧
    (∀ b0 b1 b2 b3 b4 b5 b6 b7 : Nat,
      decode [8, b0, b1, b2, b3, b4, b5, b6, b7] = .error .tooShort) ∧
    (∀ dm f : Nat, ∀ rest : List Nat,
      decode (9 :: dm :: f :: rest) = .ok (.InitializeMintP dm (f != 0))) ∧
    (∀ dm : Nat, decode [9, dm] = .error .tooShort) ∧
    (∀ dm f : Nat, ∀ rest : List Nat,
      decode (10 :: dm :: f :: rest) = .ok (.InitializeMint2P dm (f != 0))) ∧
    (∀ dm : Nat, decode [10, dm] = .error .tooShort) ∧
    (∀ rest : List Nat, decode (11 :: rest) = .ok .InitializeAccountP) ∧
    (∀ rest : List Nat, decode (12 :: rest) = .ok .InitializeAccount2P) ∧
    (∀ rest : List Nat, decode (13 :: rest) = .ok .InitializeAccount3P) ∧
    (∀ t f : Nat, ∀ rest : List Nat,
      decode (14 :: t :: f :: rest) = .ok (.SetAuthorityP t (f != 0))) ∧
    (∀ t : Nat, decode [14, t] = .error .tooShort) ∧
    (∀ accounts data : List Nat,
      processTokenOps accounts data = (decode data).bind (resolveTokenOps accounts)) ∧
    (∀ accounts data : List Nat,
      processTokenOps2022 accounts data =
        (decode data).bind (resolveTokenOps2022 accounts)) := by
  repeat' apply And.intro
  all_goals intros
  all_goals
    first
      | rfl
      | simp [decode, byteAt, readU64LE, leVal, ok_bind, error_bind, pure_eq_ok]

/-- Claim C8: any instruction whose discriminator byte is outside 0-14 hits
the `_ => Ok(())` fallback arm of both dispatcher variants: the result is the
trivial no-op success for every payload (`rest`) and every account list,
neither of which is inspected (the result is literally constant in both). -/
theorem C8_unknown_discriminator (d : Nat) (hd : 14 < d) (accounts rest : List Nat) :
    processTokenOps accounts (d :: rest) = .ok (.NoOp d) ∧
    processTokenOps2022 accounts (d :: rest) = .ok (.NoOp d) := by
  constructor <;>
    simp [processTokenOps, processTokenOps2022, decode_unknown d hd rest,
      ok_bind, resolveTokenOps, resolveTokenOps2022, pure_eq_ok]

/-- Witness for C8 at discriminator 255 with an empty payload and no
accounts. -/
theorem C8_unknown_discriminator_witness :
    processTokenOps [] [255] = .ok (.NoOp 255) ∧
    processTokenOps2022 [] [255] = .ok (.NoOp 255) :=
  C8_unknown_discriminator 255 (by omega) [] []

/-- Claim C1, evaluated at the failing input: the SetAuthority arm of both
dispatcher variants accepts the out-of-range `authority_type` byte 200
(domain: 0 mint-tokens, 1 freeze, 2 account-owner, 3 close) and builds the
descriptor around the raw byte — the source's
`unsafe { core::mem::transmute(authority_type) }` — instead of failing
decode. -/
theorem C1_raw_authority_byte :
    processTokenOps [10, 11, 12, 13] [14, 200, 1] =
      .ok (.SetAuthority 10 11 200 (some 12)) ∧
    processTokenOps2022 [10, 11, 12, 13] [14, 200, 1] =
      .ok (.SetAuthority 10 11 200 (some 12) 13) := by
  constructor <;>
    simp [processTokenOps, processTokenOps2022, decode, resolveTokenOps,
      resolveTokenOps2022, byteAt, acct, ok_bind, pure_eq_ok]

/-- Claim C2: in the extended dispatcher, for opcodes 9, 10 and 14, the
token-program account index with the optional-account flag set (any nonzero
byte `f`) is exactly one greater than with the flag clear — 4 vs 3 for
opcode 9, 3 vs 2 for opcodes 10 and 14 — over the same account list, and the
optional account (freeze authority / new authority) is read from the slot
immediately preceding the token-program slot. -/
theorem C2_index_shift (a0 a1 a2 a3 a4 : Nat) (rest : List Nat) (dm t f : Nat)
    (hf : f ≠ 0) :
    processTokenOps2022 (a0 :: a1 :: a2 :: a3 :: a4 :: rest) [9, dm, f] =
      .ok (.InitializeMint a0 a1 dm a2 (some a3) a4) ∧
    processTokenOps2022 (a0 :: a1 :: a2 :: a3 :: a4 :: rest) [9, dm, 0] =
      .ok (.InitializeMint a0 a1 dm a2 none a3) ∧
    processTokenOps2022 (a0 :: a1 :: a2 :: a3 :: a4 :: rest) [10, dm, f] =
      .ok (.InitializeMint2 a0 dm a1 (some a2) a3) ∧
    processTokenOps2022 (a0 :: a1 :: a2 :: a3 :: a4 :: rest) [10, dm, 0] =
      .ok (.InitializeMint2 a0 dm a1 none a2) ∧
    processTokenOps2022 (a0 :: a1 :: a2 :: a3 :: a4 :: rest) [14, t, f] =
      .ok (.SetAuthority a0 a1 t (some a2) a3) ∧
    processTokenOps2022 (a0 :: a1 :: a2 :: a3 :: a4 :: rest) [14, t, 0] =
      .ok (.SetAuthority a0 a1 t none a2) := by
  have hb : (f != 0) = true := by simpa using hf
  refine ⟨?_, ?_, ?_, ?_, ?_, ?_⟩ <;>
    simp [processTokenOps2022, decode, resolveTokenOps2022, byteAt, acct, hb,
      ok_bind, pure_eq_ok]

/-- Witness for C2 with account identities 20-24, decimals 7, authority type
3, flag byte 2. -/
theorem C2_index_shift_witness :
    processTokenOps2022 [20, 21, 22, 23, 24] [9, 7, 2] =
      .ok (.InitializeMint 20 21 7 22 (some 23) 24) :=
  (C2_index_shift 20 21 22 23 24 [] 7 3 2 (by omega)).1

theorem acct_congr {a a' : List Nat} (i : Nat) (h : a[i]? = a'[i]?) :
    acct a i = acct a' i := by
  unfold acct
  rw [h]

theorem resolveTokenOps_agree (p : Payload) (a a' : List Nat)
    (h : ∀ i : Nat, i < tokenProgramSlot p → a[i]? = a'[i]?) :
    resolveTokenOps a p = resolveTokenOps a' p := by
  cases p with
  | TransferP amount =>
      simp only [resolveTokenOps,
        acct_congr 0 (h 0 (by simp [tokenProgramSlot])),
        acct_congr 1 (h 1 (by simp [tokenProgramSlot])),
        acct_congr 2 (h 2 (by simp [tokenProgramSlot]))]
  | MintToP amount =>
      simp only [resolveTokenOps,
        acct_congr 0 (h 0 (by simp [tokenProgramSlot])),
        acct_congr 1 (h 1 (by simp [tokenProgramSlot])),
        acct_congr 2 (h 2 (by simp [tokenProgramSlot]))]
  | BurnP amount =>
      simp only [resolveTokenOps,
        acct_congr 0 (h 0 (by simp [tokenProgramSlot])),
        acct_congr 1 (h 1 (by simp [tokenProgramSlot])),
        acct_congr 2 (h 2 (by simp [tokenProgramSlot]))]
  | ApproveP amount =>
      simp only [resolveTokenOps,
        acct_congr 0 (h 0 (by simp [tokenProgramSlot])),
        acct_congr 1 (h 1 (by simp [tokenProgramSlot])),
        acct_congr 2 (h 2 (by simp [tokenProgramSlot]))]
  | RevokeP =>
      simp only [resolveTokenOps,
        acct_congr 0 (h 0 (by simp [tokenProgramSlot])),
        acct_congr 1 (h 1 (by simp [tokenProgramSlot]))]
  | CloseAccountP =>
      simp only [resolveTokenOps,
        acct_congr 0 (h 0 (by simp [tokenProgramSlot])),
        acct_congr 1 (h 1 (by simp [tokenProgramSlot])),
        acct_congr 2 (h 2 (by simp [tokenProgramSlot]))]
  | FreezeAccountP =>
      simp only [resolveTokenOps,
        acct_congr 0 (h 0 (by simp [tokenProgramSlot])),
        acct_congr 1 (h 1 (by simp [tokenProgramSlot])),
        acct_congr 2 (h 2 (by simp [tokenProgramSlot]))]
  | ThawAccountP =>
      simp only [resolveTokenOps,
        acct_congr 0 (h 0 (by simp [tokenProgramSlot])),
        acct_congr 1 (h 1 (by simp [tokenProgramSlot])),
        acct_congr 2 (h 2 (by simp [tokenProgramSlot]))]
  | TransferCheckedP amount decimals =>
      simp only [resolveTokenOps,
        acct_congr 0 (h 0 (by simp [tokenProgramSlot])),
        acct_congr 1 (h 1 (by simp [tokenProgramSlot])),
        acct_congr 2 (h 2 (by simp [tokenProgramSlot])),
        acct_congr 3 (h 3 (by simp [tokenProgramSlot]))]
  | InitializeMintP decimals hasFreeze =>
      cases hasFreeze with
      | true =>
          simp only [resolveTokenOps,
            acct_congr 0 (h 0 (by simp [tokenProgramSlot])),
            acct_congr 1 (h 1 (by simp [tokenProgramSlot])),
            acct_congr 2 (h 2 (by simp [tokenProgramSlot])),
            acct_congr 3 (h 3 (by simp [tokenProgramSlot]))]
      | false =>
          simp [resolveTokenOps,
            acct_congr 0 (h 0 (by simp [tokenProgramSlot])),
            acct_congr 1 (h 1 (by simp [tokenProgramSlot])),
            acct_congr 2 (h 2 (by simp [tokenProgramSlot]))]
  | InitializeMint2P decimals hasFreeze =>
      cases hasFreeze with
      | true =>
          simp only [resolveTokenOps,
            acct_congr 0 (h 0 (by simp [tokenProgramSlot])),
            acct_congr 1 (h 1 (by simp [tokenProgramSlot])),
            acct_congr 2 (h 2 (by simp [tokenProgramSlot]))]
      | false =>
          simp [resolveTokenOps,
            acct_congr 0 (h 0 (by simp [tokenProgramSlot])),
            acct_congr 1 (h 1 (by simp [tokenProgramSlot]))]
  | InitializeAccountP =>
      simp only [resolveTokenOps,
        acct_congr 0 (h 0 (by simp [tokenProgramSlot])),
        acct_congr 1 (h 1 (by simp [tokenProgramSlot])),
        acct_congr 2 (h 2 (by simp [tokenProgramSlot])),
        acct_congr 3 (h 3 (by simp [tokenProgramSlot]))]
  | InitializeAccount2P =>
      simp only [resolveTokenOps,
        acct_congr 0 (h 0 (by simp [tokenProgramSlot])),
        acct_congr 1 (h 1 (by simp [tokenProgramSlot])),
        acct_congr 2 (h 2 (by simp [tokenProgramSlot])),
        acct_congr 3 (h 3 (by simp [tokenProgramSlot]))]
  | InitializeAccount3P =>
      simp only [resolveTokenOps,
        acct_congr 0 (h 0 (by simp [tokenProgramSlot])),
        acct_congr 1 (h 1 (by simp [tokenProgramSlot])),
        acct_congr 2 (h 2 (by simp [tokenProgramSlot]))]
  | SetAuthorityP authorityType hasNew =>
      cases hasNew with
      | true =>
          simp only [resolveTokenOps,
            acct_congr 0 (h 0 (by simp [tokenProgramSlot])),
            acct_congr 1 (h 1 (by simp [tokenProgramSlot])),
            acct_congr 2 (h 2 (by simp [tokenProgramSlot]))]
      | false =>
          simp [resolveTokenOps,
            acct_congr 0 (h 0 (by simp [tokenProgramSlot])),
            acct_congr 1 (h 1 (by simp [tokenProgramSlot]))]
  | NoOpP disc => rfl

/-- Claim C9: the classic dispatcher never reads the trailing token-program
slot of its documented account layouts: whenever an instruction decodes,
two account lists that agree on every slot before the (flag-shifted)
token-program index — and may differ there or anywhere later — produce the
identical result, and with the optional-account flag of opcodes 9, 10 or 14
clear the optional slot itself lies at or beyond that index, hence is never
accessed either. -/
theorem C9_token_program_unread (data a a' : List Nat) (p : Payload)
    (hdec : decode data = .ok p)
    (h : ∀ i : Nat, i < tokenProgramSlot p → a[i]? = a'[i]?) :
    processTokenOps a data = processTokenOps a' data := by
  unfold processTokenOps
  rw [hdec]
  simp only [ok_bind]
  exact resolveTokenOps_agree p a a' h

/-- Witness for C9: a Revoke instruction with two account lists differing in
the token-program slot (index 2). -/
theorem C9_token_program_unread_witness :
    processTokenOps [1, 2, 3] [4] = processTokenOps [1, 2, 99] [4] :=
  C9_token_program_unread [4] [1, 2, 3] [1, 2, 99] .RevokeP (by rfl)
    (by decide)

theorem length_mk_str (l : List Char) : (String.mk l).length = l.length := rfl

/-- Counterexample to claim C4 as stated: the table rows are not ordered by
opcode enumeration order.  The second operation row printed (overall line 3,
after the two header lines) is TransferChecked, whose opcode is 8, whereas
opcode order would put MintTo (opcode 1) there; the full sequence of row
opcodes differs from 0..14. -/
theorem C4_not_opcode_order :
    benchRowOrder[1]? = some TokenOp.TransferChecked ∧
    opcodeOf TokenOp.TransferChecked = 8 ∧
    benchRowOrder.map opcodeOf ≠ List.range 15 ∧
    (benchmarkTokenOps (some [0]) fun _ => Except.ok 0)[3]? =
      some (formatRowStr "TransferChecked" "0") := by
  refine ⟨rfl, rfl, by decide, rfl⟩

/-- Claim C4 as amended: each benchmark table is the two header lines
followed by exactly one row per supported operation — `Operation` column
left-aligned to 25 characters, `CU Consumed` column right-aligned to 12 —
but the rows appear in the harness's fixed print order (Transfer,
TransferChecked, MintTo, Burn, Approve, Revoke, FreezeAccount, ThawAccount,
CloseAccount, InitializeMint, InitializeMint2, InitializeAccount,
InitializeAccount2, InitializeAccount3, SetAuthority), i.e. opcodes
0,8,1,2,3,4,6,7,5,9,10,11,12,13,14, not opcode enumeration order. -/
theorem C4_table_shape :
    (∀ (bytes : List Nat) (txResult : TokenOp → Except TxFailure Nat),
      benchmarkTokenOps (some bytes) txResult =
        tableHeaderLines ++ benchRowOrder.map fun op =>
          formatRowStr (opName op) (toString (reportedComputeUnits (txResult op)))) ∧
    (∀ (bytes : List Nat) (txResult : TokenOp → Except TxFailure Nat),
      benchmarkToken2022Ops (some bytes) txResult =
        tableHeaderLines ++ benchRowOrder.map fun op =>
          formatRowStr (opName op) (toString (reportedComputeUnits (txResult op)))) ∧
    benchRowOrder.map opcodeOf = [0, 8, 1, 2, 3, 4, 6, 7, 5, 9, 10, 11, 12, 13, 14] ∧
    benchRowOrder.length = 15 ∧
    (benchRowOrder.map opcodeOf).Perm (List.range 15) ∧
    (∀ s : String, (padRight s 25).length = max 25 s.length) ∧
    (∀ s : String, (padLeft s 12).length = max 12 s.length) ∧
    (∀ first second : String,
      formatRowStr first second = padRight first 25 ++ " " ++ padLeft second 12) := by
  refine ⟨fun _ _ => rfl, fun _ _ => rfl, by decide, by decide, by decide,
    ?_, ?_, fun _ _ => rfl⟩
  · intro s
    simp [padRight, String.length_append, length_mk_str]
    omega
  · intro s
    simp [padLeft, String.length_append, length_mk_str]
    omega

/-- Counterexample to claim C5 as stated: when the token-ops program binary
fails to load, `benchmark_token_ops` returns before printing anything, so
the Metrics Reporter receives no compute-unit numbers and no table (not even
one of zero rows) is printed — rather than a full table of 0 readings. -/
theorem C5_load_failure_no_table :
    benchmarkTokenOps none (fun _ => Except.ok 5) = [] ∧
    (benchmarkTokenOps none fun _ => Except.ok 5).length = 0 :=
  ⟨rfl, rfl⟩

/-- Claim C5 as amended: with the program binary loaded, per-operation
transaction failures never abort the report — every operation's row carries
the compute-unit figure extracted from the outcome (the metadata units on
failure), and the table always has all 17 lines regardless of outcomes; the
write benchmark reports 0 when its binary fails to load; but the token
benchmark functions print no table at all when their program binary fails to
load. -/
theorem C5_per_operation_cu :
    (∀ e : TxFailure, reportedComputeUnits (Except.error e) = e.metaComputeUnits) ∧
    (∀ cu : Nat, reportedComputeUnits (Except.ok cu) = cu) ∧
    (∀ (bytes : List Nat) (txResult : TokenOp → Except TxFailure Nat),
      (benchmarkTokenOps (some bytes) txResult).length = 17) ∧
    (∀ (bytes : List Nat) (txResult : TokenOp → Except TxFailure Nat),
      (benchmarkToken2022Ops (some bytes) txResult).length = 17) ∧
    (∀ txResult : Except TxFailure Nat, runWriteBenchmark none txResult = 0) ∧
    (∀ txResult : TokenOp → Except TxFailure Nat,
      benchmarkTokenOps none txResult = []) ∧
    (∀ txResult : TokenOp → Except TxFailure Nat,
      benchmarkToken2022Ops none txResult = []) := by
  refine ⟨fun _ => rfl, fun _ => rfl, ?_, ?_, fun _ => rfl, fun _ => rfl,
    fun _ => rfl⟩ <;>
  · intro bytes txResult
    simp [benchmarkTokenOps, benchmarkToken2022Ops, tableHeaderLines, benchRowOrder]

theorem length_writeSlice (data : List Nat) (off : Nat) (src : List Nat)
    (h : off + src.length ≤ data.length) :
    (writeSlice data off src).length = data.length := by
  simp [writeSlice]
  omega

theorem getElem?_writeSlice (data : List Nat) (off : Nat) (src : List Nat)
    (i : Nat) (h : off + src.length ≤ data.length) :
    (writeSlice data off src)[i]? =
      if off ≤ i ∧ i < off + src.length then src[i - off]? else data[i]? := by
  have hto : (data.take off).length = off := by simp; omega
  unfold writeSlice
  rw [List.getElem?_append, hto]
  by_cases h1 : i < off
  · rw [if_pos h1, if_neg (by omega)]
    simp [List.getElem?_take, h1]
  · rw [if_neg h1, List.getElem?_append]
    by_cases h2 : i < off + src.length
    · rw [if_pos (by omega), if_pos (by omega)]
    · rw [if_neg (by omega), if_neg (by omega), List.getElem?_drop]
      congr 1
      omega

theorem sliceOf_getElem? (data : List Nat) (off len i : Nat) :
    (sliceOf data off len)[i]? = if i < len then data[off + i]? else none := by
  simp [sliceOf, List.getElem?_take, List.getElem?_drop]

theorem sliceOf_writeSlice_outside (data : List Nat) (off : Nat) (src : List Nat)
    (off2 len2 : Nat) (h : off + src.length ≤ data.length)
    (hd : off2 + len2 ≤ off ∨ off + src.length ≤ off2) :
    sliceOf (writeSlice data off src) off2 len2 = sliceOf data off2 len2 := by
  apply List.ext_getElem?
  intro i
  rw [sliceOf_getElem?, sliceOf_getElem?, getElem?_writeSlice data off src (off2 + i) h]
  by_cases hi : i < len2
  · rw [if_pos hi, if_pos hi, if_neg (by omega)]
  · rw [if_neg hi, if_neg hi]

theorem sliceOf_writeSlice_self (data : List Nat) (off : Nat) (src : List Nat)
    (len : Nat) (h : off + src.length ≤ data.length) (hlen : len = src.length) :
    sliceOf (writeSlice data off src) off len = src := by
  apply List.ext_getElem?
  intro i
  rw [sliceOf_getElem?, getElem?_writeSlice data off src (off + i) h]
  by_cases hi : i < len
  · rw [if_pos hi, if_pos (by omega)]
    congr 1
    omega
  · rw [if_neg hi]
    exact (List.getElem?_eq_none (by omega)).symm

theorem leVal_u64le (s : Nat) (hs : s < 2 ^ 64) : leVal (u64le s) = s := by
  simp only [leVal, u64le, List.foldr]
  norm_num
  omega

theorem mint_base_facts (ma : List Nat) (dm s : Nat) (hma : ma.length = 32) :
    (mintFixtureBase ma dm s).length = 82 ∧
    sliceOf (mintFixtureBase ma dm s) 0 4 = u32le 1 ∧
    sliceOf (mintFixtureBase ma dm s) 4 32 = ma ∧
    sliceOf (mintFixtureBase ma dm s) 36 8 = u64le s ∧
    sliceOf (mintFixtureBase ma dm s) 44 1 = [dm] ∧
    sliceOf (mintFixtureBase ma dm s) 45 1 = [1] := by
  unfold mintFixtureBase
  have e0 : (List.replicate 82 0 : List Nat).length = 82 := by simp
  have e1 : (writeSlice (List.replicate 82 0) 0 (u32le 1)).length = 82 := by
    rw [length_writeSlice _ _ _ (by simp [u32le])]
    exact e0
  have e2 : (writeSlice (writeSlice (List.replicate 82 0) 0 (u32le 1)) 4 ma).length
      = 82 := by
    rw [length_writeSlice _ _ _ (by rw [e1]; simp [hma])]
    exact e1
  have e3 : (writeSlice (writeSlice (writeSlice (List.replicate 82 0) 0 (u32le 1))
      4 ma) 36 (u64le s)).length = 82 := by
    rw [length_writeSlice _ _ _ (by rw [e2]; simp [u64le])]
    exact e2
  have e4 : (writeSlice (writeSlice (writeSlice (writeSlice (List.replicate 82 0)
      0 (u32le 1)) 4 ma) 36 (u64le s)) 44 [dm]).length = 82 := by
    rw [length_writeSlice _ _ _ (by rw [e3]; simp)]
    exact e3
  have e5 : (writeSlice (writeSlice (writeSlice (writeSlice (writeSlice
      (List.replicate 82 0) 0 (u32le 1)) 4 ma) 36 (u64le s)) 44 [dm]) 45 [1]).length
      = 82 := by
    rw [length_writeSlice _ _ _ (by rw [e4]; simp)]
    exact e4
  refine ⟨e5, ?_, ?_, ?_, ?_, ?_⟩
  · rw [sliceOf_writeSlice_outside _ _ _ _ _ (by rw [e4]; simp) (Or.inl (by norm_num)),
      sliceOf_writeSlice_outside _ _ _ _ _ (by rw [e3]; simp) (Or.inl (by norm_num)),
      sliceOf_writeSlice_outside _ _ _ _ _ (by rw [e2]; simp [u64le]) (Or.inl (by norm_num)),
      sliceOf_writeSlice_outside _ _ _ _ _ (by rw [e1]; simp [hma]) (Or.inl (by norm_num)),
      sliceOf_writeSlice_self _ _ _ _ (by simp [u32le]) (by simp [u32le])]
  · rw [sliceOf_writeSlice_outside _ _ _ _ _ (by rw [e4]; simp) (Or.inl (by norm_num)),
      sliceOf_writeSlice_outside _ _ _ _ _ (by rw [e3]; simp) (Or.inl (by norm_num)),
      sliceOf_writeSlice_outside _ _ _ _ _ (by rw [e2]; simp [u64le]) (Or.inl (by norm_num)),
      sliceOf_writeSlice_self _ _ _ _ (by rw [e1]; simp [hma]) (by omega)]
  · rw [sliceOf_writeSlice_outside _ _ _ _ _ (by rw [e4]; simp) (Or.inl (by norm_num)),
      sliceOf_writeSlice_outside _ _ _ _ _ (by rw [e3]; simp) (Or.inl (by norm_num)),
      sliceOf_writeSlice_self _ _ _ _ (by rw [e2]; simp [u64le]) (by simp [u64le])]
  · rw [sliceOf_writeSlice_outside _ _ _ _ _ (by rw [e4]; simp) (Or.inl (by norm_num)),
      sliceOf_writeSlice_self _ _ _ _ (by rw [e3]; simp) (by simp)]
  · rw [sliceOf_writeSlice_self _ _ _ _ (by rw [e4]; simp) (by simp)]

theorem create_mint_data_some_facts (ma fa : List Nat) (dm s : Nat)
    (hma : ma.length = 32) (hfa : fa.length = 32) :
    (create_mint_data ma (some fa) dm s).length = 82 ∧
    sliceOf (create_mint_data ma (some fa) dm s) 0 4 = u32le 1 ∧
    sliceOf (create_mint_data ma (some fa) dm s) 4 32 = ma ∧
    sliceOf (create_mint_data ma (some fa) dm s) 36 8 = u64le s ∧
    sliceOf (create_mint_data ma (some fa) dm s) 44 1 = [dm] ∧
    sliceOf (create_mint_data ma (some fa) dm s) 45 1 = [1] ∧
    sliceOf (create_mint_data ma (some fa) dm s) 46 4 = u32le 1 ∧
    sliceOf (create_mint_data ma (some fa) dm s) 50 32 = fa := by
  obtain ⟨b0, b1, b2, b3, b4, b5⟩ := mint_base_facts ma dm s hma
  have f1 : (writeSlice (mintFixtureBase ma dm s) 46 (u32le 1)).length = 82 := by
    rw [length_writeSlice _ _ _ (by rw [b0]; simp [u32le])]
    exact b0
  have f2 : (writeSlice (writeSlice (mintFixtureBase ma dm s) 46 (u32le 1))
      50 fa).length = 82 := by
    rw [length_writeSlice _ _ _ (by rw [f1]; simp [hfa])]
    exact f1
  refine ⟨?_, ?_, ?_, ?_, ?_, ?_, ?_, ?_⟩
  · simpa [create_mint_data] using f2
  · simp only [create_mint_data]
    rw [sliceOf_writeSlice_outside _ _ _ _ _ (by rw [f1]; simp [hfa])
        (Or.inl (by norm_num)),
      sliceOf_writeSlice_outside _ _ _ _ _ (by rw [b0]; simp [u32le])
        (Or.inl (by norm_num))]
    exact b1
  · simp only [create_mint_data]
    rw [sliceOf_writeSlice_outside _ _ _ _ _ (by rw [f1]; simp [hfa])
        (Or.inl (by norm_num)),
      sliceOf_writeSlice_outside _ _ _ _ _ (by rw [b0]; simp [u32le])
        (Or.inl (by norm_num))]
    exact b2
  · simp only [create_mint_data]
    rw [sliceOf_writeSlice_outside _ _ _ _ _ (by rw [f1]; simp [hfa])
        (Or.inl (by norm_num)),
      sliceOf_writeSlice_outside _ _ _ _ _ (by rw [b0]; simp [u32le])
        (Or.inl (by norm_num))]
    exact b3
  · simp only [create_mint_data]
    rw [sliceOf_writeSlice_outside _ _ _ _ _ (by rw [f1]; simp [hfa])
        (Or.inl (by norm_num)),
      sliceOf_writeSlice_outside _ _ _ _ _ (by rw [b0]; simp [u32le])
        (Or.inl (by norm_num))]
    exact b4
  · simp only [create_mint_data]
    rw [sliceOf_writeSlice_outside _ _ _ _ _ (by rw [f1]; simp [hfa])
        (Or.inl (by norm_num)),
      sliceOf_writeSlice_outside _ _ _ _ _ (by rw [b0]; simp [u32le])
        (Or.inl (by norm_num))]
    exact b5
  · simp only [create_mint_data]
    rw [sliceOf_writeSlice_outside _ _ _ _ _ (by rw [f1]; simp [hfa])
        (Or.inl (by norm_num)),
      sliceOf_writeSlice_self _ _ _ _ (by rw [b0]; simp [u32le]) (by simp [u32le])]
  · simp only [create_mint_data]
    rw [sliceOf_writeSlice_self _ _ _ _ (by rw [f1]; simp [hfa]) (by omega)]

theorem create_mint_data_none_facts (ma : List Nat) (dm s : Nat)
    (hma : ma.length = 32) :
    (create_mint_data ma none dm s).length = 82 ∧
    sliceOf (create_mint_data ma none dm s) 0 4 = u32le 1 ∧
    sliceOf (create_mint_data ma none dm s) 4 32 = ma ∧
    sliceOf (create_mint_data ma none dm s) 36 8 = u64le s ∧
    sliceOf (create_mint_data ma none dm s) 44 1 = [dm] ∧
    sliceOf (create_mint_data ma none dm s) 45 1 = [1] ∧
    sliceOf (create_mint_data ma none dm s) 46 4 = u32le 0 := by
  obtain ⟨b0, b1, b2, b3, b4, b5⟩ := mint_base_facts ma dm s hma
  refine ⟨?_, ?_, ?_, ?_, ?_, ?_, ?_⟩
  · simp only [create_mint_data]
    rw [length_writeSlice _ _ _ (by rw [b0]; simp [u32le])]
    exact b0
  · simp only [create_mint_data]
    rw [sliceOf_writeSlice_outside _ _ _ _ _ (by rw [b0]; simp [u32le])
        (Or.inl (by norm_num))]
    exact b1
  · simp only [create_mint_data]
    rw [sliceOf_writeSlice_outside _ _ _ _ _ (by rw [b0]; simp [u32le])
        (Or.inl (by norm_num))]
    exact b2
  · simp only [create_mint_data]
    rw [sliceOf_writeSlice_outside _ _ _ _ _ (by rw [b0]; simp [u32le])
        (Or.inl (by norm_num))]
    exact b3
  · simp only [create_mint_data]
    rw [sliceOf_writeSlice_outside _ _ _ _ _ (by rw [b0]; simp [u32le])
        (Or.inl (by norm_num))]
    exact b4
  · simp only [create_mint_data]
    rw [sliceOf_writeSlice_outside _ _ _ _ _ (by rw [b0]; simp [u32le])
        (Or.inl (by norm_num))]
    exact b5
  · simp only [create_mint_data]
    rw [sliceOf_writeSlice_self _ _ _ _ (by rw [b0]; simp [u32le]) (by simp [u32le])]

theorem token_account_data_facts (mint owner : List Nat) (amt : Nat)
    (hm : mint.length = 32) (ho : owner.length = 32) :
    (create_token_account_data mint owner amt).length = 165 ∧
    sliceOf (create_token_account_data mint owner amt) 64 8 = u64le amt ∧
    sliceOf (create_token_account_data mint owner amt) 72 4 = u32le 0 ∧
    sliceOf (create_token_account_data mint owner amt) 109 4 = u32le 0 ∧
    sliceOf (create_token_account_data mint owner amt) 129 4 = u32le 0 := by
  have g1 : (writeSlice (List.replicate 165 0) 0 mint).length = 165 := by
    rw [length_writeSlice _ _ _ (by simp only [List.length_replicate, hm]; omega)]
    simp only [List.length_replicate]
  have g2 : (writeSlice (writeSlice (List.replicate 165 0) 0 mint)
      32 owner).length = 165 := by
    rw [length_writeSlice _ _ _ (by rw [g1]; simp [ho])]
    exact g1
  have g3 : (writeSlice (writeSlice (writeSlice (List.replicate 165 0) 0 mint)
      32 owner) 64 (u64le amt)).length = 165 := by
    rw [length_writeSlice _ _ _ (by rw [g2]; simp [u64le])]
    exact g2
  have g4 : (writeSlice (writeSlice (writeSlice (writeSlice (List.replicate 165 0)
      0 mint) 32 owner) 64 (u64le amt)) 72 (u32le 0)).length = 165 := by
    rw [length_writeSlice _ _ _ (by rw [g3]; simp [u32le])]
    exact g3
  have g5 : (writeSlice (writeSlice (writeSlice (writeSlice (writeSlice
      (List.replicate 165 0) 0 mint) 32 owner) 64 (u64le amt)) 72 (u32le 0))
      108 [1]).length = 165 := by
    rw [length_writeSlice _ _ _ (by rw [g4]; simp)]
    exact g4
  have g6 : (writeSlice (writeSlice (writeSlice (writeSlice (writeSlice (writeSlice
      (List.replicate 165 0) 0 mint) 32 owner) 64 (u64le amt)) 72 (u32le 0))
      108 [1]) 109 (u32le 0)).length = 165 := by
    rw [length_writeSlice _ _ _ (by rw [g5]; simp [u32le])]
    exact g5
  have g7 : (writeSlice (writeSlice (writeSlice (writeSlice (writeSlice (writeSlice
      (writeSlice (List.replicate 165 0) 0 mint) 32 owner) 64 (u64le amt))
      72 (u32le 0)) 108 [1]) 109 (u32le 0)) 121 (u64le 0)).length = 165 := by
    rw [length_writeSlice _ _ _ (by rw [g6]; simp [u64le])]
    exact g6
  refine ⟨?_, ?_, ?_, ?_, ?_⟩
  · simp only [create_token_account_data]
    rw [length_writeSlice _ _ _ (by rw [g7]; simp [u32le])]
    exact g7
  · simp only [create_token_account_data]
    rw [sliceOf_writeSlice_outside _ _ _ _ _ (by rw [g7]; simp [u32le])
        (Or.inl (by norm_num)),
      sliceOf_writeSlice_outside _ _ _ _ _ (by rw [g6]; simp [u64le])
        (Or.inl (by norm_num)),
      sliceOf_writeSlice_outside _ _ _ _ _ (by rw [g5]; simp [u32le])
        (Or.inl (by norm_num)),
      sliceOf_writeSlice_outside _ _ _ _ _ (by rw [g4]; simp)
        (Or.inl (by norm_num)),
      sliceOf_writeSlice_outside _ _ _ _ _ (by rw [g3]; simp [u32le])
        (Or.inl (by norm_num)),
      sliceOf_writeSlice_self _ _ _ _ (by rw [g2]; simp [u64le]) (by simp [u64le])]
  · simp only [create_token_account_data]
    rw [sliceOf_writeSlice_outside _ _ _ _ _ (by rw [g7]; simp [u32le])
        (Or.inl (by norm_num)),
      sliceOf_writeSlice_outside _ _ _ _ _ (by rw [g6]; simp [u64le])
        (Or.inl (by norm_num)),
      sliceOf_writeSlice_outside _ _ _ _ _ (by rw [g5]; simp [u32le])
        (Or.inl (by norm_num)),
      sliceOf_writeSlice_outside _ _ _ _ _ (by rw [g4]; simp)
        (Or.inl (by norm_num)),
      sliceOf_writeSlice_self _ _ _ _ (by rw [g3]; simp [u32le]) (by simp [u32le])]
  · simp only [create_token_account_data]
    rw [sliceOf_writeSlice_outside _ _ _ _ _ (by rw [g7]; simp [u32le])
        (Or.inl (by norm_num)),
      sliceOf_writeSlice_outside _ _ _ _ _ (by rw [g6]; simp [u64le])
        (Or.inl (by norm_num)),
      sliceOf_writeSlice_self _ _ _ _ (by rw [g5]; simp [u32le]) (by simp [u32le])]
  · simp only [create_token_account_data]
    rw [sliceOf_writeSlice_self _ _ _ _ (by rw [g7]; simp [u32le]) (by simp [u32le])]

set_option maxHeartbeats 1000000 in
set_option maxRecDepth 8000 in
/-- Claim C7: the fixture builder's 82-byte mint record round-trips through
the SPL mint layout — deserializing reproduces the supplied mint authority
(4-byte Some flag at 0, key at 4..36), supply (little-endian u64 at 36..44),
decimals (44), is_initialized true (45) and freeze authority (flag at
46..50, key at 50..82), in both the present and absent freeze-authority
cases — and the 165-byte token-account record zero-initializes delegate
(72..76), is_native (109..113) and close_authority (129..133) to the
four-byte zero absent sentinel. -/
theorem C7_fixture_roundtrip (ma fa mint owner : List Nat) (dm s amt : Nat)
    (hma : ma.length = 32) (hfa : fa.length = 32)
    (hm : mint.length = 32) (ho : owner.length = 32) (hs : s < 2 ^ 64) :
    ((create_mint_data ma (some fa) dm s).length = 82 ∧
     unpackMint (create_mint_data ma (some fa) dm s) =
       some ⟨some ma, s, dm, true, some fa⟩) ∧
    ((create_mint_data ma none dm s).length = 82 ∧
     unpackMint (create_mint_data ma none dm s) =
       some ⟨some ma, s, dm, true, none⟩) ∧
    ((create_token_account_data mint owner amt).length = 165 ∧
     sliceOf (create_token_account_data mint owner amt) 72 4 = u32le 0 ∧
     sliceOf (create_token_account_data mint owner amt) 109 4 = u32le 0 ∧
     sliceOf (create_token_account_data mint owner amt) 129 4 = u32le 0) := by
  obtain ⟨hl, s0, s4, s36, s44, s45, s46, s50⟩ :=
    create_mint_data_some_facts ma fa dm s hma hfa
  obtain ⟨nl, n0, n4, n36, n44, n45, n46⟩ :=
    create_mint_data_none_facts ma dm s hma
  obtain ⟨tl, t64, t72, t109, t129⟩ := token_account_data_facts mint owner amt hm ho
  refine ⟨⟨hl, ?_⟩, ⟨nl, ?_⟩, tl, t72, t109, t129⟩
  · simp [unpackMint, readCOption32, readBool, hl, s0, s4, s36, s44, s45, s46,
      s50, leVal_u64le s hs]
  · simp [unpackMint, readCOption32, readBool, nl, n0, n4, n36, n44, n45, n46,
      leVal_u64le s hs, u32le]

/-- Witness for C7 with concrete 32-byte keys, decimals 9, supply 5. -/
theorem C7_fixture_roundtrip_witness :
    unpackMint (create_mint_data (List.replicate 32 1) (some (List.replicate 32 2)) 9 5) =
      some ⟨some (List.replicate 32 1), 5, 9, true, some (List.replicate 32 2)⟩ :=
  (C7_fixture_roundtrip (List.replicate 32 1) (List.replicate 32 2)
    (List.replicate 32 3) (List.replicate 32 4) 9 5 7 (by simp) (by simp)
    (by simp) (by simp) (by norm_num)).1.2

/-- Claim C6: in a benchmark run, the measured Revoke is preceded by exactly
one setup instruction — an Approve (discriminator 3, amount 1000) on the
same source token account and the delegate — and the measured ThawAccount by
exactly one setup FreezeAccount (discriminator 6) on the same token account
and mint; setup outcomes are discarded (the reported compute units depend
only on the measured instruction's outcome); no other operation has a setup
instruction; and CloseAccount targets the freshly created zero-balance
`closeToken` account, distinct from the shared source account. -/
theorem C6_setup_sequencing (env : BenchEnv)
    (hfresh : env.closeToken ≠ env.sourceToken)
    (hm : env.mint.length = 32) (ha : env.authority.length = 32) :
    setupInstrs env TokenOp.Revoke =
      [⟨env.benchProgramId,
        [env.sourceToken, env.delegate, env.authority, env.tokenProgramId],
        3 :: u64le 1000⟩] ∧
    (measuredInstr env TokenOp.Revoke).data = [4] ∧
    (measuredInstr env TokenOp.Revoke).accounts[0]? = some env.sourceToken ∧
    setupInstrs env TokenOp.ThawAccount =
      [⟨env.benchProgramId,
        [env.sourceToken, env.mint, env.authority, env.tokenProgramId],
        [6]⟩] ∧
    (measuredInstr env TokenOp.ThawAccount).data = [7] ∧
    (measuredInstr env TokenOp.ThawAccount).accounts[0]? = some env.sourceToken ∧
    (measuredInstr env TokenOp.ThawAccount).accounts[1]? = some env.mint ∧
    (∀ op : TokenOp, op ≠ TokenOp.Revoke → op ≠ TokenOp.ThawAccount →
      setupInstrs env op = []) ∧
    (measuredInstr env TokenOp.CloseAccount).accounts[0]? = some env.closeToken ∧
    env.closeToken ≠ env.sourceToken ∧
    closeAccountFixture env =
      (env.closeToken, create_token_account_data env.mint env.authority 0) ∧
    sliceOf (closeAccountFixture env).2 64 8 = u64le 0 ∧
    (∀ (ex ex2 : Instr → Except TxFailure Nat) (op : TokenOp),
      ex (measuredInstr env op) = ex2 (measuredInstr env op) →
      runTokenBenchCU env ex op = runTokenBenchCU env ex2 op) := by
  refine ⟨rfl, rfl, rfl, rfl, rfl, rfl, rfl, ?_, rfl, hfresh, rfl, ?_, ?_⟩
  · intro op h1 h2
    cases op <;> first | rfl | exact absurd rfl h1 | exact absurd rfl h2
  · exact (token_account_data_facts env.mint env.authority 0 hm ha).2.1
  · intro ex ex2 op h
    unfold runTokenBenchCU
    rw [h]

/-- Witness for C6 at the concrete sample environment. -/
theorem C6_setup_sequencing_witness :
    setupInstrs sampleEnv TokenOp.Revoke =
      [⟨sampleEnv.benchProgramId,
        [sampleEnv.sourceToken, sampleEnv.delegate, sampleEnv.authority,
         sampleEnv.tokenProgramId],
        3 :: u64le 1000⟩] :=
  (C6_setup_sequencing sampleEnv (by decide) (by simp [sampleEnv])
    (by simp [sampleEnv])).1

/-- Claim C10: `write_bytes_copy` writes exactly
`min(destination.len(), source.len())` bytes from the front of the source
over the front of the destination: the result keeps the destination's
length, its first `min` entries are the source bytes, every later entry is
the untouched (possibly still uninitialized) destination entry, and the
empty cases behave accordingly; no position beyond either slice enters the
result. -/
theorem C10_write_bytes_copy (destination : List (Option Nat)) (source : List Nat)
    (i : Nat) :
    (write_bytes_copy destination source).length = destination.length ∧
    (write_bytes_copy destination source)[i]? =
      (if i < min destination.length source.length then source[i]?.map some
       else destination[i]?) ∧
    write_bytes_copy [] source = [] ∧
    write_bytes_copy destination [] = destination := by
  refine ⟨?_, ?_, ?_, ?_⟩
  · simp [write_bytes_copy]
  · simp only [write_bytes_copy]
    rw [List.getElem?_append]
    simp only [List.length_map, List.length_take]
    by_cases hi : i < min destination.length source.length
    · have his : i < source.length := by omega
      rw [if_pos hi, if_pos (by omega)]
      simp [List.getElem?_map, List.getElem?_take, hi, List.getElem?_eq_getElem his]
    · rw [if_neg hi, if_neg (by omega), List.getElem?_drop]
      congr 1
      omega
  · simp [write_bytes_copy]
  · simp [write_bytes_copy]

end TokenBench
